import Mathlib

/-
  A verification development for the GoTogether campus ridesharing
  application.  The definitions below are a shallow embedding of the
  client logic and of the database schema:

  - the rides and requests tables with their CHECK and UNIQUE
    constraints (migration 20251006213530 plus guest_mode_migration);
  - handleSubmit of the OfferRide component (ride creation, guest and
    authenticated paths, with the mock distance/duration/cost formula);
  - handleBooking and fetchRides of the FindRide component;
  - handleRequestDecision of the DriverDashboard component, which reads
    the request and the ride from the client cache (the component state
    produced by the last fetch) and then issues up to two sequential
    database updates.

  Timestamps are modelled as integer epoch milliseconds, monetary
  amounts as rationals, row ids as naturals.  The audit columns
  created_at / updated_at, which the application logic never reads,
  are omitted.  Each supabase update call is modelled as a total map
  over the corresponding table; a Boolean flag per update models the
  possibility that the backend rejects it (the error object the client
  destructures and throws on).
-/

namespace GoTogether

/-- Status enum of the requests table: request_status AS ENUM. -/
inductive RequestStatus
  | pending
  | approved
  | denied
deriving DecidableEq

/-- A row of the rides table.  driver_id is NULL for guest-posted rides
(guest_mode_migration relaxed the NOT NULL constraint and added the
contact columns). -/
structure Ride where
  id : Nat
  driver_id : Option Nat
  origin : String
  destination : String
  departure_time : Int
  arrival_time : Int
  total_seats : Int
  available_seats : Int
  cost_per_person : ℚ
  contact_email : Option String
  contact_name : Option String
deriving DecidableEq

/-- A row of the requests table.  passenger_id is NULL for guest
requests. -/
structure Request where
  id : Nat
  ride_id : Nat
  passenger_id : Option Nat
  seats_requested : Int
  status : RequestStatus
  contact_email : Option String
  contact_name : Option String
deriving DecidableEq

/-- The persistent state: the two tables the booking workflow touches. -/
structure DB where
  rides : List Ride
  requests : List Request
deriving DecidableEq

/-- The CHECK constraints on the rides table:
total_seats > 0, available_seats >= 0, cost_per_person >= 0 and
available_seats <= total_seats. -/
def ridesRowChecks (r : Ride) : Prop :=
  0 < r.total_seats ∧ 0 ≤ r.available_seats ∧ 0 ≤ r.cost_per_person ∧
    r.available_seats ≤ r.total_seats

/-- The supabase call: update requests set status = st where id = requestId. -/
def updateRequestStatus (db : DB) (requestId : Nat) (st : RequestStatus) : DB :=
  { db with
    requests := db.requests.map fun r =>
      if r.id == requestId then { r with status := st } else r }

/-- The supabase call: update rides set available_seats = n where id = rideId.
The client writes an absolute value computed from its cached copy of the
ride, not a relative decrement. -/
def updateRideSeats (db : DB) (rideId : Nat) (n : Int) : DB :=
  { db with
    rides := db.rides.map fun r =>
      if r.id == rideId then { r with available_seats := n } else r }

/-- The two decision buttons of the driver dashboard. -/
inductive Decision
  | approve
  | deny
deriving DecidableEq

/-- What a handleRequestDecision call reports back (the toast shown, the
early return, or the thrown error caught by the surrounding try). -/
inductive Outcome
  | missingEntity
  | approvedOk
  | autoDenied
  | deniedOk
  | errorThrown
deriving DecidableEq

/-- Database state plus reported outcome after a decision call. -/
structure DecideResult where
  db : DB
  outcome : Outcome
deriving DecidableEq

/-- handleRequestDecision from the DriverDashboard component
(part_007 lines 134-201).  The request and the ride are looked up in the
client cache (cachedRequests, cachedRides: the component state filled by
the last fetchData); the seat check compares seats_requested against the
cached available_seats; on approval the client first updates the request
row and then, only if that update did not error, writes the new absolute
seat count.  requestUpdateFails and rideUpdateFails model the backend
rejecting the respective update; a rejected update commits nothing.  In
the insufficient-seats branch the client ignores the update error. -/
def handleRequestDecision (cachedRequests : List Request) (cachedRides : List Ride)
    (db : DB) (requestId : Nat) (rideId : Nat) (decision : Decision)
    (requestUpdateFails : Bool) (rideUpdateFails : Bool) : DecideResult :=
  match cachedRequests.find? (fun r => r.id == requestId),
        cachedRides.find? (fun r => r.id == rideId) with
  | some request, some ride =>
    match decision with
    | Decision.approve =>
      if ride.available_seats ≥ request.seats_requested then
        if requestUpdateFails then
          { db := db, outcome := Outcome.errorThrown }
        else
          let db1 := updateRequestStatus db requestId RequestStatus.approved
          if rideUpdateFails then
            { db := db1, outcome := Outcome.errorThrown }
          else
            { db := updateRideSeats db1 rideId
                      (ride.available_seats - request.seats_requested),
              outcome := Outcome.approvedOk }
      else
        { db := if requestUpdateFails then db
                else updateRequestStatus db requestId RequestStatus.denied,
          outcome := Outcome.autoDenied }
    | Decision.deny =>
      if requestUpdateFails then
        { db := db, outcome := Outcome.errorThrown }
      else
        { db := updateRequestStatus db requestId RequestStatus.denied,
          outcome := Outcome.deniedOk }
  | _, _ => { db := db, outcome := Outcome.missingEntity }

/-- A decision call made right after a fetch, so that the client cache
coincides with the database, and with both updates accepted. -/
def decideFresh (db : DB) (requestId rideId : Nat) (d : Decision) : DecideResult :=
  handleRequestDecision db.requests db.rides db requestId rideId d false false

/-- The failures handleBooking can surface: the early return when a guest
supplies no email, and the insert errors raised by the requests table
constraints. -/
inductive BookingError
  | emailRequired
  | seatsCheckFailed
  | duplicateRequest
deriving DecidableEq

/-- INSERT into the requests table, enforcing CHECK (seats_requested > 0)
and UNIQUE(ride_id, passenger_id).  As in SQL, the unique constraint
never fires on NULL passenger_id: guest rows do not conflict with
anything. -/
def insertRequest (db : DB) (req : Request) : Except BookingError DB :=
  if req.seats_requested ≤ 0 then
    Except.error BookingError.seatsCheckFailed
  else if (match req.passenger_id with
    | some pid =>
        db.requests.any fun r => r.ride_id == req.ride_id && r.passenger_id == some pid
    | none => false) then
    Except.error BookingError.duplicateRequest
  else
    Except.ok { db with requests := db.requests ++ [req] }

/-- handleBooking from the FindRide component (part_002 lines 121-186):
a guest (user = none) must supply an email and inserts a request row with
NULL passenger_id and the contact columns set; an authenticated user
inserts a row with passenger_id = user id.  Either insert leaves status
at its SQL default, pending.  newId stands for the generated row id. -/
def handleBooking (db : DB) (selectedRide : Ride) (user : Option Nat)
    (seatsToBook : Int) (guestEmail guestName : String) (newId : Nat) :
    Except BookingError DB :=
  match user with
  | none =>
    if guestEmail = "" then
      Except.error BookingError.emailRequired
    else
      insertRequest db
        { id := newId, ride_id := selectedRide.id, passenger_id := none,
          seats_requested := seatsToBook, status := RequestStatus.pending,
          contact_email := some guestEmail,
          contact_name := if guestName = "" then none else some guestName }
  | some uid =>
    insertRequest db
      { id := newId, ride_id := selectedRide.id, passenger_id := some uid,
        seats_requested := seatsToBook, status := RequestStatus.pending,
        contact_email := none, contact_name := none }

/-- Ordering used by the rides query: ascending departure_time. -/
def rideLe (a b : Ride) : Prop :=
  a.departure_time ≤ b.departure_time

instance : DecidableRel rideLe :=
  fun a b => inferInstanceAs (Decidable (a.departure_time ≤ b.departure_time))

instance : IsTotal Ride rideLe :=
  ⟨fun a b => le_total a.departure_time b.departure_time⟩

instance : IsTrans Ride rideLe :=
  ⟨fun _ _ _ h1 h2 => le_trans h1 h2⟩

/-- fetchRides from the FindRide component (part_002 lines 75-112):
select rides with departure_time > now and available_seats > 0, ordered
by ascending departure_time. -/
def fetchRides (db : DB) (now : Int) : List Ride :=
  List.insertionSort rideLe
    (db.rides.filter fun r =>
      decide (now < r.departure_time) && decide (0 < r.available_seats))

/-- The sentinel value of the two location dropdowns. -/
def allLocations : String := "All Locations"

/-- The render-time filter of the FindRide component (part_002 lines
248-252): keep a ride when each dropdown is either at the sentinel or
exactly equal to the corresponding field. -/
def applyLocationFilters (rides : List Ride)
    (originFilter destinationFilter : String) : List Ride :=
  rides.filter fun ride =>
    (originFilter == allLocations || ride.origin == originFilter) &&
    (destinationFilter == allLocations || ride.destination == destinationFilter)

/-- mockDistance from handleSubmit of the OfferRide component:
(origin.length + destination.length) * 12 miles. -/
def mockDistanceOf (origin destination : String) : ℚ :=
  ((origin.length : ℚ) + (destination.length : ℚ)) * 12

/-- mockDurationMinutes: Math.round((mockDistance / 55) * 60).  The
Mathlib round, floor (x + 1/2), coincides with the JS Math.round. -/
def mockDurationMinutesOf (origin destination : String) : ℤ :=
  round (mockDistanceOf origin destination / 55 * 60)

/-- costPerPerson: ((mockDistance / AVG_MPG) * PRICE_PER_GALLON) /
(seatsNum + 1), with AVG_MPG = 25 and PRICE_PER_GALLON = 3.85. -/
def costPerPersonOf (origin destination : String) (seatsNum : ℤ) : ℚ :=
  mockDistanceOf origin destination / 25 * (385 / 100) / ((seatsNum : ℚ) + 1)

/-- The rides row built by handleSubmit (part_000, both the guest branch
at lines 84-98 and the authenticated branch at lines 135-144; the two
branches compute identical values and differ only in driver_id and the
contact columns).  departureMs is the parsed datetime, seatsNum the
parsed seat count, newId the generated row id. -/
def offeredRide (newId : Nat) (user : Option Nat) (origin destination : String)
    (departureMs : ℤ) (seatsNum : ℤ) (guestEmail guestName : String) : Ride :=
  { id := newId,
    driver_id := user,
    origin := origin,
    destination := destination,
    departure_time := departureMs,
    arrival_time := departureMs + mockDurationMinutesOf origin destination * 60000,
    total_seats := seatsNum,
    available_seats := seatsNum,
    cost_per_person := costPerPersonOf origin destination seatsNum,
    contact_email := match user with
      | none => some guestEmail
      | some _ => none,
    contact_name := match user with
      | none => if guestName = "" then none else some guestName
      | some _ => none }

/-- handleSubmit from the OfferRide component (part_000 lines 56-169):
the guest path returns early when no email was supplied, otherwise
either path inserts the computed rides row. -/
def handleSubmit (db : DB) (newId : Nat) (user : Option Nat)
    (origin destination : String) (departureMs : ℤ) (seatsNum : ℤ)
    (guestEmail guestName : String) : Option DB :=
  match user with
  | none =>
    if guestEmail = "" then none
    else some { db with rides := db.rides ++
      [offeredRide newId none origin destination departureMs seatsNum guestEmail guestName] }
  | some uid =>
    some { db with rides := db.rides ++
      [offeredRide newId (some uid) origin destination departureMs seatsNum guestEmail guestName] }

/-- Total seats consumed by the approved requests of one ride. -/
def approvedSeats (db : DB) (rideId : Nat) : Int :=
  ((db.requests.filter fun q =>
      q.ride_id == rideId && q.status == RequestStatus.approved).map
    fun q => q.seats_requested).sum

/-- The global seat invariant of the specification, as a Boolean check:
for every ride, available_seats equals total_seats minus the seats of
its approved requests. -/
def seatInvariantHolds (db : DB) : Bool :=
  db.rides.all fun r =>
    r.available_seats == r.total_seats - approvedSeats db r.id

/-- One atomic database write, as issued by handleRequestDecision. -/
inductive DBWrite
  | setRequestStatus (requestId : Nat) (st : RequestStatus)
  | setAvailableSeats (rideId : Nat) (n : Int)
deriving DecidableEq

/-- Apply one write to the database. -/
def applyWrite (db : DB) : DBWrite → DB
  | DBWrite.setRequestStatus qid st => updateRequestStatus db qid st
  | DBWrite.setAvailableSeats rid n => updateRideSeats db rid n

/-- The sequence of database writes one handleRequestDecision call
issues, as a function of the cache snapshot it runs against.  This is
the same control flow as handleRequestDecision with both updates
accepted, with the writes listed instead of folded into the state. -/
def decisionWrites (cachedRequests : List Request) (cachedRides : List Ride)
    (requestId rideId : Nat) (decision : Decision) : List DBWrite :=
  match cachedRequests.find? (fun r => r.id == requestId),
        cachedRides.find? (fun r => r.id == rideId) with
  | some request, some ride =>
    match decision with
    | Decision.approve =>
      if ride.available_seats ≥ request.seats_requested then
        [DBWrite.setRequestStatus requestId RequestStatus.approved,
         DBWrite.setAvailableSeats rideId
           (ride.available_seats - request.seats_requested)]
      else
        [DBWrite.setRequestStatus requestId RequestStatus.denied]
    | Decision.deny =>
      [DBWrite.setRequestStatus requestId RequestStatus.denied]
  | _, _ => []

/-- All interleavings of two write sequences, with a fuel argument to
keep the recursion structural. -/
def interleavingsAux : Nat → List DBWrite → List DBWrite → List (List DBWrite)
  | _, [], ys => [ys]
  | _, x :: xs, [] => [x :: xs]
  | 0, xs, ys => [xs ++ ys]
  | Nat.succ n, x :: xs, y :: ys =>
      (interleavingsAux n xs (y :: ys)).map (fun s => x :: s) ++
      (interleavingsAux n (x :: xs) ys).map (fun s => y :: s)

/-- All interleavings of two write sequences. -/
def interleavings (xs ys : List DBWrite) : List (List DBWrite) :=
  interleavingsAux (xs.length + ys.length) xs ys

/-! Concrete fixtures used by the counterexample evaluations and the
witnesses. -/

/-- A ride with all three seats still available. -/
def rideThree : Ride :=
  { id := 1, driver_id := some 100, origin := "A", destination := "B",
    departure_time := 1000, arrival_time := 2000, total_seats := 3,
    available_seats := 3, cost_per_person := 0,
    contact_email := none, contact_name := none }

/-- The same ride after a two-seat approval: one seat left. -/
def rideOneLeft : Ride :=
  { rideThree with available_seats := 1 }

/-- A pending two-seat request by registered passenger 200. -/
def reqPending2 : Request :=
  { id := 10, ride_id := 1, passenger_id := some 200, seats_requested := 2,
    status := RequestStatus.pending, contact_email := none, contact_name := none }

/-- A second pending two-seat request, by registered passenger 201. -/
def reqPending2b : Request :=
  { id := 11, ride_id := 1, passenger_id := some 201, seats_requested := 2,
    status := RequestStatus.pending, contact_email := none, contact_name := none }

/-- A pending five-seat request, more than the ride offers. -/
def reqPending5 : Request :=
  { id := 12, ride_id := 1, passenger_id := some 202, seats_requested := 5,
    status := RequestStatus.pending, contact_email := none, contact_name := none }

/-- The two-seat request once approved. -/
def reqApproved2 : Request :=
  { reqPending2 with status := RequestStatus.approved }

/-- A pending guest request (NULL passenger_id). -/
def reqGuest : Request :=
  { id := 13, ride_id := 1, passenger_id := none, seats_requested := 1,
    status := RequestStatus.pending, contact_email := some "g@example.com",
    contact_name := none }

/-- Ride with three seats, one pending two-seat request. -/
def dbPending : DB := { rides := [rideThree], requests := [reqPending2] }

/-- Ride with three seats, two pending two-seat requests. -/
def dbRace : DB := { rides := [rideThree], requests := [reqPending2, reqPending2b] }

/-- Ride with three seats, one pending five-seat request. -/
def dbShort : DB := { rides := [rideThree], requests := [reqPending5] }

/-- State after a two-seat approval: one seat left, request approved. -/
def dbApproved : DB := { rides := [rideOneLeft], requests := [reqApproved2] }

/-- Database holding a registered request and a guest request for the
same ride. -/
def dbDup : DB := { rides := [rideThree], requests := [reqPending2, reqGuest] }

/-- The empty database. -/
def emptyDB : DB := { rides := [], requests := [] }

/-- The ride row the offer flow inserts in the C1 scenario. -/
def c1Ride : Ride := offeredRide 1 (some 100) ("A") ("B") 1000 3 ("") ("")

/-- Database after the C1 ride creation. -/
def c1Db1 : DB := { rides := [c1Ride], requests := [] }

/-- The request row the booking flow inserts in the C1 scenario. -/
def c1Req : Request :=
  { id := 10, ride_id := 1, passenger_id := some 200, seats_requested := 2,
    status := RequestStatus.pending, contact_email := none, contact_name := none }

/-- Database after the C1 booking. -/
def c1Db2 : DB := { rides := [c1Ride], requests := [c1Req] }

/-- The writes of the first concurrent approval in the race scenario,
computed from the shared cache snapshot. -/
def raceWritesA : List DBWrite :=
  decisionWrites dbRace.requests dbRace.rides 10 1 Decision.approve

/-- The writes of the second concurrent approval in the race scenario,
computed from the same cache snapshot. -/
def raceWritesB : List DBWrite :=
  decisionWrites dbRace.requests dbRace.rides 11 1 Decision.approve

/-- The ride row of the C10 witness. -/
def w10Ride : Ride := offeredRide 2 none ("a") ("b") 0 3 ("x") ("")

/-- Database after the C10 witness submission. -/
def w10Db2 : DB := { rides := [w10Ride], requests := [] }

/-! Theorems. -/

/-- Sanity check tying the write-list model used for the race analysis
to the state-passing embedding of handleRequestDecision: folding the
writes a call issues over the database yields exactly the database the
call leaves behind when both updates are accepted. -/
theorem decisionWrites_agrees_with_handler (cachedRequests : List Request)
    (cachedRides : List Ride) (db : DB) (requestId rideId : Nat) (d : Decision) :
    (decisionWrites cachedRequests cachedRides requestId rideId d).foldl applyWrite db =
      (handleRequestDecision cachedRequests cachedRides db requestId rideId d false false).db := by
  unfold decisionWrites handleRequestDecision
  cases hq : cachedRequests.find? (fun r => r.id == requestId) with
  | none => cases hr : cachedRides.find? (fun r => r.id == rideId) <;> rfl
  | some request =>
    cases hr : cachedRides.find? (fun r => r.id == rideId) with
    | none => rfl
    | some ride =>
      cases d with
      | approve =>
        by_cases hc : ride.available_seats ≥ request.seats_requested
        · simp [hc, applyWrite, List.foldl]
        · simp [hc, applyWrite, List.foldl]
      | deny => rfl

/-- Claim C1: the code does not preserve the seat invariant under every
sequence of operations.  The offer flow creates a three-seat ride and
the booking flow a pending two-seat request, establishing the invariant;
the approving decide call preserves it; but a following decide(deny)
call on the now-approved request flips the status to denied without
restoring the seats, leaving available_seats at 1 while total_seats
minus the approved seats is 3. -/
theorem c1_seat_invariant_broken_by_decide_sequence :
    handleSubmit emptyDB 1 (some 100) ("A") ("B") 1000 3 ("") ("") = some c1Db1 ∧
    handleBooking c1Db1 c1Ride (some 200) 2 ("") ("") 10 = Except.ok c1Db2 ∧
    seatInvariantHolds c1Db2 = true ∧
    seatInvariantHolds (decideFresh c1Db2 10 1 Decision.approve).db = true ∧
    seatInvariantHolds
      (decideFresh (decideFresh c1Db2 10 1 Decision.approve).db 10 1 Decision.deny).db
      = false := by
  refine ⟨rfl, rfl, ?_, ?_, ?_⟩ <;> decide

/-- Claim C2: the two approval mutations are not applied atomically.
With three seats cached and a pending two-seat request, when the request
update is accepted but the seat update is rejected, the call throws and
leaves the request committed as approved while the ride is unchanged:
one mutation is committed without the other. -/
theorem c2_nonatomic_approve_on_ride_update_failure :
    (handleRequestDecision [reqPending2] [rideThree] dbPending 10 1
        Decision.approve false true).outcome = Outcome.errorThrown ∧
    (handleRequestDecision [reqPending2] [rideThree] dbPending 10 1
        Decision.approve false true).db.rides = dbPending.rides ∧
    (handleRequestDecision [reqPending2] [rideThree] dbPending 10 1
        Decision.approve false true).db.requests =
      [{ reqPending2 with status := RequestStatus.approved }] ∧
    (handleRequestDecision [reqPending2] [rideThree] dbPending 10 1
        Decision.approve false true).db ≠ dbPending := by
  refine ⟨rfl, rfl, rfl, ?_⟩
  decide

/-- Claim C3: with three seats available and two concurrent approvals of
two-seat requests issued against the same cache snapshot, every one of
the six interleavings of the four database writes ends with both
requests approved (not exactly one), available_seats equal to 1, and the
seat invariant broken. -/
theorem c3_race_approves_both_requests :
    (interleavings raceWritesA raceWritesB).length = 6 ∧
    ((interleavings raceWritesA raceWritesB).all fun s =>
      ((s.foldl applyWrite dbRace).requests.all fun q =>
          q.status == RequestStatus.approved) &&
      ((s.foldl applyWrite dbRace).rides.all fun r =>
          r.available_seats == 1) &&
      !(seatInvariantHolds (s.foldl applyWrite dbRace))) = true := by
  decide

/-- Claim C4: there is no write-once guard.  A second decide(deny) on an
already denied request reports plain success rather than failing with
InvalidTransitionError, and a decide(deny) on an approved request
silently rewrites its status to denied. -/
theorem c4_no_invalid_transition_guard :
    (decideFresh (decideFresh dbPending 10 1 Decision.deny).db 10 1
        Decision.deny).outcome = Outcome.deniedOk ∧
    (decideFresh dbApproved 10 1 Decision.deny).outcome = Outcome.deniedOk ∧
    (decideFresh dbApproved 10 1 Decision.deny).db.requests =
      [{ reqApproved2 with status := RequestStatus.denied }] := by
  decide

/-- Claim C5: a decide(approve) on a pending request whose
seats_requested exceeds the available seats takes the auto-deny branch:
the only database write sets the request status to denied, the outcome
toast is the insufficient-seats denial, and the rides table is left
unchanged. -/
theorem c5_approve_insufficient_auto_denies (db : DB) (requestId rideId : Nat)
    (request : Request) (ride : Ride)
    (hq : db.requests.find? (fun r => r.id == requestId) = some request)
    (hr : db.rides.find? (fun r => r.id == rideId) = some ride)
    (hpending : request.status = RequestStatus.pending)
    (hshort : ride.available_seats < request.seats_requested) :
    decideFresh db requestId rideId Decision.approve =
      { db := updateRequestStatus db requestId RequestStatus.denied,
        outcome := Outcome.autoDenied } ∧
    (decideFresh db requestId rideId Decision.approve).db.rides = db.rides := by
  have h1 : decideFresh db requestId rideId Decision.approve =
      { db := updateRequestStatus db requestId RequestStatus.denied,
        outcome := Outcome.autoDenied } := by
    unfold decideFresh handleRequestDecision
    rw [hq, hr]
    simp [not_le.mpr hshort]
  exact ⟨h1, by rw [h1]; rfl⟩


/-- Witness for claim C5: the five-seat request against the three-seat
ride is auto-denied and the ride row is untouched. -/
theorem c5_approve_insufficient_auto_denies_witness :
    decideFresh dbShort 12 1 Decision.approve =
      { db := updateRequestStatus dbShort 12 RequestStatus.denied,
        outcome := Outcome.autoDenied } ∧
    (decideFresh dbShort 12 1 Decision.approve).db.rides = dbShort.rides :=
  c5_approve_insufficient_auto_denies dbShort 12 1 reqPending5 rideThree
    (by decide) (by decide) (by decide) (by decide)

/-- Claim C6: a decide(deny) on a pending request issues exactly one
write, setting that request status to denied; the rides table, hence
every field of every ride, is unchanged, and the matching request
reappears with status denied. -/
theorem c6_deny_updates_request_only (db : DB) (requestId rideId : Nat)
    (request : Request) (ride : Ride)
    (hq : db.requests.find? (fun r => r.id == requestId) = some request)
    (hr : db.rides.find? (fun r => r.id == rideId) = some ride)
    (hpending : request.status = RequestStatus.pending) :
    decideFresh db requestId rideId Decision.deny =
      { db := updateRequestStatus db requestId RequestStatus.denied,
        outcome := Outcome.deniedOk } ∧
    (decideFresh db requestId rideId Decision.deny).db.rides = db.rides ∧
    ∀ q ∈ db.requests, q.id = requestId →
      { q with status := RequestStatus.denied } ∈
        (decideFresh db requestId rideId Decision.deny).db.requests := by
  have h1 : decideFresh db requestId rideId Decision.deny =
      { db := updateRequestStatus db requestId RequestStatus.denied,
        outcome := Outcome.deniedOk } := by
    unfold decideFresh handleRequestDecision
    rw [hq, hr]
    rfl
  refine ⟨h1, by rw [h1]; rfl, ?_⟩
  intro q hmem hid
  rw [h1]
  show _ ∈ (updateRequestStatus db requestId RequestStatus.denied).requests
  simp only [updateRequestStatus, List.mem_map]
  exact ⟨q, hmem, by simp [hid]⟩

/-- Witness for claim C6: denying the pending two-seat request leaves
the ride row untouched and marks the request denied. -/
theorem c6_deny_updates_request_only_witness :
    decideFresh dbPending 10 1 Decision.deny =
      { db := updateRequestStatus dbPending 10 RequestStatus.denied,
        outcome := Outcome.deniedOk } ∧
    (decideFresh dbPending 10 1 Decision.deny).db.rides = dbPending.rides ∧
    ∀ q ∈ dbPending.requests, q.id = 10 →
      { q with status := RequestStatus.denied } ∈
        (decideFresh dbPending 10 1 Decision.deny).db.requests :=
  c6_deny_updates_request_only dbPending 10 1 reqPending2 rideThree
    (by decide) (by decide) (by decide)

/-- Claim C7: the seat-sufficiency check compares against the
available_seats captured at the last data fetch, not against the current
value re-read at decision time.  From the three-seat ride with two
pending two-seat requests, approving request 11 right after a fetch
brings the current available seats down to 1, strictly below the two
seats request 10 asks for; yet a decide(approve) on request 10 that
still runs against the cache snapshot taken before that approval (the
second click landing before the refetch) reports approval, while the
same call with the ride re-read at decision time takes the auto-deny
branch.  The approval that occurred since the data was last loaded is
therefore not reflected in the check. -/
theorem c7_check_uses_cached_not_current_seats :
    (decideFresh dbRace 11 1 Decision.approve).outcome = Outcome.approvedOk ∧
    ((decideFresh dbRace 11 1 Decision.approve).db.rides.all fun r =>
        decide (r.available_seats < reqPending2.seats_requested)) = true ∧
    ((decideFresh dbRace 11 1 Decision.approve).db.requests.any fun q =>
        q.id == 10 && q.status == RequestStatus.pending) = true ∧
    (handleRequestDecision dbRace.requests dbRace.rides
        (decideFresh dbRace 11 1 Decision.approve).db 10 1
        Decision.approve false false).outcome = Outcome.approvedOk ∧
    (decideFresh (decideFresh dbRace 11 1 Decision.approve).db 10 1
        Decision.approve).outcome = Outcome.autoDenied := by
  decide

/-- Inserting a request row whose registered passenger already has a row
for the same ride trips the UNIQUE(ride_id, passenger_id) constraint. -/
theorem insertRequest_duplicate (db : DB) (req : Request) (pid : Nat)
    (hpid : req.passenger_id = some pid)
    (hseats : 0 < req.seats_requested)
    (hdup : ∃ r ∈ db.requests, r.ride_id = req.ride_id ∧ r.passenger_id = some pid) :
    insertRequest db req = Except.error BookingError.duplicateRequest := by
  obtain ⟨r, hmem, hrid, hp⟩ := hdup
  unfold insertRequest
  rw [if_neg (not_le.mpr hseats), hpid]
  rw [if_pos (List.any_eq_true.mpr ⟨r, hmem, by simp [hrid, hp]⟩)]

/-- Inserting a guest request row (NULL passenger_id) never trips the
unique constraint: the insert always succeeds when the seat check
passes. -/
theorem insertRequest_guest_ok (db : DB) (req : Request)
    (hpid : req.passenger_id = none)
    (hseats : 0 < req.seats_requested) :
    insertRequest db req = Except.ok { db with requests := db.requests ++ [req] } := by
  unfold insertRequest
  rw [if_neg (not_le.mpr hseats), hpid]
  rfl

/-- Claim C8: booking fails with the duplicate error exactly for a
registered requester who already has a request row for the ride, while a
guest booking with a contact email always succeeds and simply appends a
new row, no matter which rows (including other guest rows for the same
ride) already exist. -/
theorem c8_duplicate_only_for_registered (db : DB) (selectedRide : Ride)
    (uid : Nat) (seatsToBook : Int) (guestEmail guestName : String) (newId : Nat)
    (hseats : 0 < seatsToBook) (hmail : guestEmail ≠ "")
    (hdup : ∃ r ∈ db.requests, r.ride_id = selectedRide.id ∧ r.passenger_id = some uid) :
    handleBooking db selectedRide (some uid) seatsToBook guestEmail guestName newId =
      Except.error BookingError.duplicateRequest ∧
    ∃ db2, handleBooking db selectedRide none seatsToBook guestEmail guestName newId =
        Except.ok db2 ∧ db2.requests.length = db.requests.length + 1 := by
  constructor
  · show insertRequest db _ = _
    exact insertRequest_duplicate db _ uid rfl hseats hdup
  · refine ⟨{ db with requests := db.requests ++
      [{ id := newId, ride_id := selectedRide.id, passenger_id := none,
         seats_requested := seatsToBook, status := RequestStatus.pending,
         contact_email := some guestEmail,
         contact_name := if guestName = "" then none else some guestName }] }, ?_, ?_⟩
    · unfold handleBooking
      rw [if_neg hmail]
      exact insertRequest_guest_ok db _ rfl hseats
    · simp

/-- Witness for claim C8: passenger 200 already holds a request for ride
1, so a second registered booking is rejected as a duplicate, while a
guest booking against the same ride (which already carries another guest
request) succeeds. -/
theorem c8_duplicate_only_for_registered_witness :
    handleBooking dbDup rideThree (some 200) 2 ("e@example.com") ("") 99 =
      Except.error BookingError.duplicateRequest ∧
    ∃ db2, handleBooking dbDup rideThree none 2 ("e@example.com") ("") 99 =
        Except.ok db2 ∧ db2.requests.length = dbDup.requests.length + 1 :=
  c8_duplicate_only_for_registered dbDup rideThree 200 2 ("e@example.com") ("") 99
    (by decide) (by decide) ⟨reqPending2, by decide, by decide, by decide⟩

/-- Claim C9: the open-rides listing contains exactly the rides with a
strictly future departure and at least one available seat, sorted by
ascending departure time; the dropdown filters keep exactly the rides
whose origin and destination equal the selected values, and filtering
preserves the sorted order. -/
theorem c9_listOpenRides_spec (db : DB) (now : Int)
    (originFilter destinationFilter : String)
    (hof : originFilter ≠ allLocations) (hdf : destinationFilter ≠ allLocations) :
    (∀ r : Ride, r ∈ fetchRides db now ↔
      r ∈ db.rides ∧ now < r.departure_time ∧ 0 < r.available_seats) ∧
    List.Sorted rideLe (fetchRides db now) ∧
    (∀ r : Ride,
      r ∈ applyLocationFilters (fetchRides db now) originFilter destinationFilter ↔
      r ∈ fetchRides db now ∧ r.origin = originFilter ∧
        r.destination = destinationFilter) ∧
    List.Sorted rideLe
      (applyLocationFilters (fetchRides db now) originFilter destinationFilter) := by
  refine ⟨?_, ?_, ?_, ?_⟩
  · intro r
    unfold fetchRides
    rw [(List.perm_insertionSort rideLe _).mem_iff, List.mem_filter]
    simp
  · exact List.sorted_insertionSort rideLe _
  · intro r
    unfold applyLocationFilters
    rw [List.mem_filter]
    simp [hof, hdf]
  · unfold applyLocationFilters fetchRides
    exact List.Pairwise.filter _ (List.sorted_insertionSort rideLe _)

/-- Witness for claim C9: the listing over the one-ride fixture at time
zero, filtered to its exact origin and destination. -/
theorem c9_listOpenRides_spec_witness :
    (∀ r : Ride, r ∈ fetchRides dbPending 0 ↔
      r ∈ dbPending.rides ∧ 0 < r.departure_time ∧ 0 < r.available_seats) ∧
    List.Sorted rideLe (fetchRides dbPending 0) ∧
    (∀ r : Ride,
      r ∈ applyLocationFilters (fetchRides dbPending 0) ("A") ("B") ↔
      r ∈ fetchRides dbPending 0 ∧ r.origin = ("A") ∧ r.destination = ("B")) ∧
    List.Sorted rideLe (applyLocationFilters (fetchRides dbPending 0) ("A") ("B")) :=
  c9_listOpenRides_spec dbPending 0 ("A") ("B") (by decide) (by decide)

/-- The mock distance is a non-negative rational. -/
theorem mockDistanceOf_nonneg (origin destination : String) :
    0 ≤ mockDistanceOf origin destination := by
  unfold mockDistanceOf
  have h1 : (0:ℚ) ≤ (origin.length : ℚ) := Nat.cast_nonneg _
  have h2 : (0:ℚ) ≤ (destination.length : ℚ) := Nat.cast_nonneg _
  nlinarith

/-- The mock travel duration is a non-negative number of minutes. -/
theorem mockDurationMinutesOf_nonneg (origin destination : String) :
    0 ≤ mockDurationMinutesOf origin destination := by
  unfold mockDurationMinutesOf
  rw [round_eq]
  have hd : (0:ℚ) ≤ mockDistanceOf origin destination / 55 * 60 :=
    mul_nonneg (div_nonneg (mockDistanceOf_nonneg origin destination) (by norm_num))
      (by norm_num)
  exact Int.floor_nonneg.mpr (by linarith)

/-- The mock per-person cost is non-negative whenever at least one seat
was requested. -/
theorem costPerPersonOf_nonneg (origin destination : String) (seatsNum : ℤ)
    (h : 1 ≤ seatsNum) : 0 ≤ costPerPersonOf origin destination seatsNum := by
  unfold costPerPersonOf
  have h1 : (0:ℚ) ≤ (seatsNum : ℚ) + 1 := by
    have h2 : (1:ℚ) ≤ (seatsNum : ℚ) := by exact_mod_cast h
    linarith
  exact div_nonneg
    (mul_nonneg (div_nonneg (mockDistanceOf_nonneg _ _) (by norm_num)) (by norm_num)) h1

/-- Claim C10: any ride the offer flow persists (guest or authenticated
path) is the computed row appended to the table; its arrival time is the
departure time plus a non-negative duration, and it satisfies every
CHECK constraint of the rides table, so the constraint-failure branches
cannot fire for it. -/
theorem c10_offered_ride_meets_row_checks (db : DB) (newId : Nat)
    (user : Option Nat) (origin destination : String)
    (departureMs seatsNum : ℤ) (guestEmail guestName : String) (db2 : DB)
    (horigin : origin ≠ "") (hdest : destination ≠ "") (hseats : 1 ≤ seatsNum)
    (hsubmit : handleSubmit db newId user origin destination departureMs seatsNum
      guestEmail guestName = some db2) :
    ∃ r0 : Ride, db2.rides = db.rides ++ [r0] ∧
      0 ≤ mockDurationMinutesOf origin destination ∧
      r0.arrival_time =
        r0.departure_time + mockDurationMinutesOf origin destination * 60000 ∧
      r0.departure_time ≤ r0.arrival_time ∧
      ridesRowChecks r0 := by
  obtain ⟨u, hdb2⟩ : ∃ u, db2 = { db with rides := db.rides ++
      [offeredRide newId u origin destination departureMs seatsNum guestEmail guestName] } := by
    cases user with
    | none =>
      unfold handleSubmit at hsubmit
      by_cases hge : guestEmail = ""
      · rw [if_pos hge] at hsubmit
        exact Option.noConfusion hsubmit
      · rw [if_neg hge] at hsubmit
        exact ⟨none, (Option.some.inj hsubmit).symm⟩
    | some uid =>
      unfold handleSubmit at hsubmit
      exact ⟨some uid, (Option.some.inj hsubmit).symm⟩
  have hdur := mockDurationMinutesOf_nonneg origin destination
  refine ⟨offeredRide newId u origin destination departureMs seatsNum guestEmail guestName,
    by simp [hdb2], hdur, rfl, ?_, ?_⟩
  · show departureMs ≤ departureMs + mockDurationMinutesOf origin destination * 60000
    have h60 : (0:ℤ) ≤ mockDurationMinutesOf origin destination * 60000 :=
      mul_nonneg hdur (by norm_num)
    linarith
  · show ridesRowChecks
      (offeredRide newId u origin destination departureMs seatsNum guestEmail guestName)
    unfold ridesRowChecks
    refine ⟨?_, ?_, ?_, ?_⟩
    · show (0:ℤ) < seatsNum
      omega
    · show (0:ℤ) ≤ seatsNum
      omega
    · show (0:ℚ) ≤ costPerPersonOf origin destination seatsNum
      exact costPerPersonOf_nonneg origin destination seatsNum hseats
    · show seatsNum ≤ seatsNum
      exact le_refl seatsNum

/-- Witness for claim C10: a guest submission with origin a, destination
b, departure zero and three seats yields a row passing every check. -/
theorem c10_offered_ride_meets_row_checks_witness :
    ∃ r0 : Ride, w10Db2.rides = emptyDB.rides ++ [r0] ∧
      0 ≤ mockDurationMinutesOf ("a") ("b") ∧
      r0.arrival_time = r0.departure_time + mockDurationMinutesOf ("a") ("b") * 60000 ∧
      r0.departure_time ≤ r0.arrival_time ∧
      ridesRowChecks r0 :=
  c10_offered_ride_meets_row_checks emptyDB 2 none ("a") ("b") 0 3 ("x") ("") w10Db2
    (by decide) (by decide) (by decide) rfl

end GoTogether
